import Mathlib

/-!
Verification of the Evidence Aggregation & Quality-Scoring Pipeline
(`src/academic_tools.py`, `src/agent.py`): a shallow embedding of the
data model, the study classifier, the quality scorer, the evidence
grader, the confidence calculator, the arXiv parser, the pipeline's
combination step and the error-handling skeleton of the retrieval
calls, followed by theorems settling the specification's claims.

Python floats are modelled as rationals (`ℚ`); all score arithmetic in
the source is on small decimal literals, where float arithmetic is
exact, so `ℚ` is a faithful model.  Python strings are Lean `String`s;
case-folding and substring search are done on `List Char` because the
source only ever lower-cases and searches ASCII keyword literals.
-/

namespace Aspartame

/-- `AcademicPaper` from `academic_tools.py` (dataclass, lines 14-31).
`sample_size` is optional and, when extracted, a regex-captured digit
string, hence a natural number. -/
structure AcademicPaper where
  title : String
  authors : List String
  abstract : String
  publication_date : String
  journal : String
  pmid : Option String := none
  doi : Option String := none
  url : String := ""
  study_type : String := "unknown"
  sample_size : Option Nat := none
  peer_reviewed : Bool := true
  impact_factor : Option ℚ := none
  conflicts_disclosed : Bool := false
  funding_source : String := ""
  quality_score : ℚ := 0
deriving DecidableEq

/-- A processed web result as built by `AspartameAgent._tavily_search`
(`agent.py` lines 419-427): title, url, content, source_type,
credibility_score. -/
structure WebResult where
  title : String
  url : String
  content : String
  source_type : String
  credibility_score : ℚ
deriving DecidableEq

/-- ASCII case folding, the effect of Python's `str.lower()` on the
ASCII keyword text the source manipulates. -/
def lowerChar (c : Char) : Char :=
  if 'A' ≤ c ∧ c ≤ 'Z' then Char.ofNat (c.toNat + 32) else c

/-- Lower-case a string (Python `str.lower()`), char by char. -/
def lowerStr (s : String) : String :=
  (s.toList.map lowerChar).asString

/-- `needle` occurs at the head of `hay` (list-of-chars level). -/
def isPrefixList : List Char → List Char → Bool
  | [], _ => true
  | _ :: _, [] => false
  | a :: as, b :: bs => a == b && isPrefixList as bs

/-- `needle` occurs somewhere in `hay`: Python's `needle in hay`
substring test, on lists of chars. -/
def containsSub (needle : List Char) : List Char → Bool
  | [] => needle.isEmpty
  | c :: rest => isPrefixList needle (c :: rest) || containsSub needle rest

/-- Python's `needle in hay` on strings. -/
def strContains (hay needle : String) : Bool :=
  containsSub needle.toList hay.toList

/-- Whitespace stripped by Python's `str.strip()` (the source only
meets ASCII whitespace). -/
def isPySpace (c : Char) : Bool :=
  c == ' ' || c == '\t' || c == '\n' || c == '\r'

/-- Python `str.strip()`. -/
def pyStrip (s : String) : String :=
  (((s.toList.dropWhile isPySpace).reverse.dropWhile isPySpace).reverse).asString

/-- Value of a digit list, e.g. `['2','0','2','3'] ↦ 2023`. -/
def digitsVal (l : List Char) : Nat :=
  l.foldl (fun acc c => 10 * acc + (c.toNat - 48)) 0

/-- Python `int(s)` on an optionally signed decimal string: strips
whitespace, accepts an optional `+`/`-` sign followed by one or more
digits, otherwise raises `ValueError`, modelled as `none`. -/
def pyInt? (s : String) : Option Int :=
  match (pyStrip s).toList with
  | [] => none
  | '+' :: rest =>
      if !rest.isEmpty && rest.all Char.isDigit then some (digitsVal rest) else none
  | '-' :: rest =>
      if !rest.isEmpty && rest.all Char.isDigit then some (-(digitsVal rest : Int)) else none
  | l =>
      if l.all Char.isDigit then some (digitsVal l) else none

/-- Python `s[-4:]`: the last four characters (the whole string when
shorter). -/
def lastFour (s : String) : String :=
  (s.toList.drop (s.toList.length - 4)).asString

/-- Python `s[:10]`: the first ten characters. -/
def firstTen (s : String) : String :=
  (s.toList.take 10).asString

/-- `PubMedSearcher._classify_study_type` (`academic_tools.py` lines
277-294): ordered keyword cascade over the lower-cased concatenation
of title and abstract, first match wins. -/
def classify_study_type (title abstract : String) : String :=
  let text := lowerStr (title ++ " " ++ abstract)
  if ["meta-analysis", "meta analysis", "systematic review"].any (fun t => strContains text t) then
    "meta-analysis"
  else if ["randomized controlled trial", "rct", "randomized"].any (fun t => strContains text t) then
    "rct"
  else if ["cohort study", "longitudinal", "prospective"].any (fun t => strContains text t) then
    "cohort"
  else if ["case-control", "case control"].any (fun t => strContains text t) then
    "case-control"
  else if ["cross-sectional", "survey"].any (fun t => strContains text t) then
    "cross-sectional"
  else if ["review", "narrative review"].any (fun t => strContains text t) then
    "review"
  else
    "observational"

/-- The `type_scores` dictionary lookup with default `0.3`
(`academic_tools.py` lines 344-353). -/
def type_scores (st : String) : ℚ :=
  if st = "meta-analysis" then 1.0
  else if st = "rct" then 0.9
  else if st = "cohort" then 0.7
  else if st = "case-control" then 0.6
  else if st = "cross-sectional" then 0.4
  else if st = "review" then 0.3
  else if st = "observational" then 0.5
  else 0.3

/-- Sample-size bonus (`academic_tools.py` lines 355-362).  Python's
`if paper.sample_size:` is false both for `None` and for `0`, hence
the explicit zero case. -/
def sampleBonus : Option Nat → ℚ
  | none => 0
  | some n =>
      if n = 0 then 0
      else if 1000 ≤ n then 0.3
      else if 100 ≤ n then 0.2
      else if 50 ≤ n then 0.1
      else 0

/-- The fixed high-impact journal allow-list (`academic_tools.py`
lines 365-368). -/
def high_impact_journals : List String :=
  ["new england journal of medicine", "lancet", "jama", "bmj",
   "nature", "science", "cochrane"]

/-- Journal-prestige bonus (`academic_tools.py` lines 369-370):
`+0.2` when any allow-list name occurs, case-insensitively, inside
the record's journal name. -/
def journalBonus (journal : String) : ℚ :=
  if high_impact_journals.any (fun h => strContains (lowerStr journal) (lowerStr h)) then 0.2
  else 0

/-- Recency bonus (`academic_tools.py` lines 372-380): parse
`int(publication_date[-4:])`; `+0.1` when within five years of the
current year; a `ValueError` is swallowed, yielding no bonus.
`currentYear` stands for `datetime.now().year`. -/
def recencyBonus (currentYear : Int) (d : String) : ℚ :=
  if d ≠ "" ∧ 4 ≤ d.length then
    match pyInt? (lastFour d) with
    | some year => if currentYear - year ≤ 5 then 0.1 else 0
    | none => 0
  else 0

/-- Conflict-disclosure bonus (`academic_tools.py` lines 383-384). -/
def disclosureBonus (b : Bool) : ℚ :=
  if b then 0.05 else 0

/-- `PubMedSearcher._assess_paper_quality` (`academic_tools.py` lines
339-386): the sequential `score += …` accumulation written as one
sum, then `min(1.0, score)`. -/
def assess_paper_quality (currentYear : Int) (p : AcademicPaper) : ℚ :=
  min 1.0 (type_scores p.study_type * 0.4
    + sampleBonus p.sample_size
    + journalBonus p.journal
    + recencyBonus currentYear p.publication_date
    + disclosureBonus p.conflicts_disclosed)

/-- The scoring-and-sorting tail of `PubMedSearcher.search_papers`
(`academic_tools.py` lines 65-70): the papers fetched and parsed for
one query get their quality score assessed, then are sorted by
quality score, highest first (Python `sorted(..., reverse=True)` is a
stable sort, modelled by `mergeSort` preferring the left element on
ties). -/
def search_papers_model (currentYear : Int) (fetched : List AcademicPaper) : List AcademicPaper :=
  ((fetched.map (fun p => { p with quality_score := assess_paper_quality currentYear p })).mergeSort
    (fun a b => decide (b.quality_score ≤ a.quality_score)))

/-- `AspartameAgent._assess_evidence_grade` (`agent.py` lines
331-354): the GRADE-style rule cascade over the collected papers. -/
def assess_evidence_grade (academic_papers : List AcademicPaper) : String :=
  if academic_papers = [] then "Very Low - No academic studies found"
  else if "meta-analysis" ∈ academic_papers.map (·.study_type) then
    if 2 ≤ (academic_papers.filter (fun p => (0.8 : ℚ) < p.quality_score)).length then
      "High - Multiple high-quality meta-analyses"
    else
      "Moderate - Meta-analysis available but limited quality"
  else if "rct" ∈ academic_papers.map (·.study_type) then
    if 3 ≤ (academic_papers.map (·.study_type)).count "rct" then
      "Moderate - Multiple randomized controlled trials"
    else
      "Low - Limited randomized controlled trials"
  else if "cohort" ∈ academic_papers.map (·.study_type)
      ∨ "case-control" ∈ academic_papers.map (·.study_type) then
    "Low - Observational studies only"
  else
    "Very Low - Limited study evidence"

/-- The grade string attached to each of the grader's seven cascade
rules, in source order (rule indices `0`-`6`). -/
def gradeLabel : Nat → String
  | 0 => "Very Low - No academic studies found"
  | 1 => "High - Multiple high-quality meta-analyses"
  | 2 => "Moderate - Meta-analysis available but limited quality"
  | 3 => "Moderate - Multiple randomized controlled trials"
  | 4 => "Low - Limited randomized controlled trials"
  | 5 => "Low - Observational studies only"
  | _ => "Very Low - Limited study evidence"

/-- The raw (unguarded) condition of each grader rule, as read off
the source's `if`/`elif` tests; indices `7` and above carry no rule. -/
def ruleCond (academic_papers : List AcademicPaper) : Nat → Prop
  | 0 => academic_papers = []
  | 1 => "meta-analysis" ∈ academic_papers.map (·.study_type)
          ∧ 2 ≤ (academic_papers.filter (fun p => (0.8 : ℚ) < p.quality_score)).length
  | 2 => "meta-analysis" ∈ academic_papers.map (·.study_type)
  | 3 => "rct" ∈ academic_papers.map (·.study_type)
          ∧ 3 ≤ (academic_papers.map (·.study_type)).count "rct"
  | 4 => "rct" ∈ academic_papers.map (·.study_type)
  | 5 => "cohort" ∈ academic_papers.map (·.study_type)
          ∨ "case-control" ∈ academic_papers.map (·.study_type)
  | 6 => True
  | _ + 7 => False

/-- Rule `i` fires on `ps` under first-match-wins semantics: its raw
condition holds and no earlier rule's condition does. -/
def fires (ps : List AcademicPaper) (i : Nat) : Prop :=
  ruleCond ps i ∧ ∀ j < i, ¬ ruleCond ps j

/-- The index of the grader rule the source's cascade actually takes,
mirroring `_assess_evidence_grade`'s branch structure exactly. -/
def firedIndex (academic_papers : List AcademicPaper) : Nat :=
  if academic_papers = [] then 0
  else if "meta-analysis" ∈ academic_papers.map (·.study_type) then
    if 2 ≤ (academic_papers.filter (fun p => (0.8 : ℚ) < p.quality_score)).length then 1
    else 2
  else if "rct" ∈ academic_papers.map (·.study_type) then
    if 3 ≤ (academic_papers.map (·.study_type)).count "rct" then 3
    else 4
  else if "cohort" ∈ academic_papers.map (·.study_type)
      ∨ "case-control" ∈ academic_papers.map (·.study_type) then 5
  else 6

/-- `AspartameAgent._calculate_confidence` (`agent.py` lines
356-377): `0.2` when both collections are empty, otherwise the
weighted combination of the academic component (mean quality times
`0.8` plus study-type diversity times `0.2`) and the web component
(mean credibility times `0.5`), weighted `0.7`/`0.3` and clamped to
`0.95`. -/
def calculate_confidence (academic_papers : List AcademicPaper)
    (web_sources : List WebResult) : ℚ :=
  if academic_papers = [] ∧ web_sources = [] then 0.2
  else
    let academic_confidence : ℚ :=
      if academic_papers = [] then 0
      else
        ((academic_papers.map (·.quality_score)).sum / academic_papers.length) * 0.8
          + (((academic_papers.map (·.study_type)).dedup.length : ℚ) / 5) * 0.2
    let web_confidence : ℚ :=
      if web_sources = [] then 0
      else ((web_sources.map (·.credibility_score)).sum / web_sources.length) * 0.5
    min 0.95 (academic_confidence * 0.7 + web_confidence * 0.3)

/-- One `<entry>` of an arXiv Atom feed as seen by
`ArXivSearcher._parse_arxiv_response` (`academic_tools.py` lines
414-466): each field is `none` when the element is absent. -/
structure ArxivEntry where
  title : Option String := none
  summary : Option String := none
  authors : List String := []
  published : Option String := none
  idUrl : Option String := none
deriving DecidableEq

/-- The `AcademicPaper` built from one arXiv entry
(`academic_tools.py` lines 428-459): fixed journal, `preprint` study
type, `peer_reviewed=False` and `quality_score=0.3`; absent elements
yield the documented defaults. -/
def parse_arxiv_entry (e : ArxivEntry) : AcademicPaper :=
  { title := match e.title with | some t => pyStrip t | none => "No title"
    authors := e.authors
    abstract := match e.summary with | some s => pyStrip s | none => ""
    publication_date := match e.published with | some p => firstTen p | none => ""
    journal := "arXiv preprint"
    url := match e.idUrl with | some u => u | none => ""
    study_type := "preprint"
    sample_size := none
    peer_reviewed := false
    conflicts_disclosed := false
    funding_source := ""
    quality_score := 0.3 }

/-- `ArXivSearcher._parse_arxiv_response`, parsing every entry of the
feed (`academic_tools.py` lines 427-461). -/
def parse_arxiv (entries : List ArxivEntry) : List AcademicPaper :=
  entries.map parse_arxiv_entry

/-- The record-combining step of `AspartameAgent.academic_search`
(`agent.py` lines 132-151): the two primary-source (PubMed) call
results are concatenated; when fewer than 3 records were collected,
the secondary-source (arXiv) search is issued and its records
appended unchanged.  The Boolean records whether the secondary search
was issued. -/
def academic_search_model (pubmed1 pubmed2 arxivResult : List AcademicPaper) :
    List AcademicPaper × Bool :=
  let academic_papers := pubmed1 ++ pubmed2
  if academic_papers.length < 3 then (academic_papers ++ arxivResult, true)
  else (academic_papers, false)

/-- The outcome of one HTTP retrieval call as observed by the source's
`try`/`except` blocks: either an exception was raised before a
response arrived (network error or timeout), or a response came back
with a status code and a payload that either parsed to an `α` or was
malformed (`none`). -/
inductive FetchOutcome (α : Type) where
  | exc : FetchOutcome α
  | resp (status : Nat) (payload : Option α) : FetchOutcome α
deriving DecidableEq

/-- `PubMedSearcher._search_pmids` (`academic_tools.py` lines
113-147): an exception returns `[]`; a non-200 status returns `[]`;
an unparsable XML body raises inside the `try` and is caught,
returning `[]`; otherwise the extracted id list is returned. -/
def search_pmids_model (o : FetchOutcome (List String)) : List String :=
  match o with
  | .exc => []
  | .resp status payload =>
      if status ≠ 200 then []
      else match payload with
        | none => []
        | some pmids => pmids

/-- `PubMedSearcher._fetch_paper_details` (`academic_tools.py` lines
149-199): empty id list returns `[]`; an exception or `ParseError`
returns `[]`; a non-200 status returns `[]`; otherwise each article
is parsed individually, a failed article (`none`) being skipped
without aborting its siblings. -/
def fetch_paper_details_model (pmids : List String)
    (o : FetchOutcome (List (Option AcademicPaper))) : List AcademicPaper :=
  if pmids = [] then []
  else match o with
    | .exc => []
    | .resp status payload =>
        if status ≠ 200 then []
        else match payload with
          | none => []
          | some articles => articles.filterMap id

/-- `ArXivSearcher.search_papers` (`academic_tools.py` lines
391-412): an exception returns `[]`; a non-200 status returns `[]`; a
feed whose XML fails to parse degrades to `[]` inside
`_parse_arxiv_response`; otherwise the parsed entries. -/
def arxiv_search_model (o : FetchOutcome (List ArxivEntry)) : List AcademicPaper :=
  match o with
  | .exc => []
  | .resp status payload =>
      if status ≠ 200 then []
      else match payload with
        | none => []
        | some entries => parse_arxiv entries

/-- `AspartameAgent._classify_source` (`agent.py` lines 439-448). -/
def classify_source (url : String) : String :=
  if strContains url "pubmed" || strContains url "ncbi" then "academic"
  else if ["mayoclinic", "nih.gov", "cdc.gov"].any (fun d => strContains url d) then
    "medical_authority"
  else if ["webmd", "healthline"].any (fun d => strContains url d) then "medical_site"
  else "news"

/-- `AspartameAgent._score_credibility` (`agent.py` lines 450-461). -/
def score_credibility (url : String) : ℚ :=
  if strContains url "pubmed" || strContains url "ncbi" then 0.95
  else if ["nih.gov", "cdc.gov"].any (fun d => strContains url d) then 0.9
  else if strContains url "mayoclinic" then 0.85
  else if ["webmd", "healthline"].any (fun d => strContains url d) then 0.7
  else 0.5

/-- A raw Tavily search hit (`title`, `url`, `content`), before the
agent classifies and scores it. -/
structure RawWebHit where
  title : String := ""
  url : String := ""
  content : String := ""
deriving DecidableEq

/-- The per-hit processing in `AspartameAgent._tavily_search`
(`agent.py` lines 420-427). -/
def processWebHit (r : RawWebHit) : WebResult :=
  { title := r.title
    url := r.url
    content := r.content
    source_type := classify_source r.url
    credibility_score := score_credibility r.url }

/-- `AspartameAgent._tavily_search` (`agent.py` lines 379-437): no API
key returns `[]`; an exception (covering timeouts and an unparsable
JSON body) returns `[]`; a non-200 status returns `[]`; an empty
result list returns `[]`; otherwise every hit is classified and
scored. -/
def tavily_search_model (hasKey : Bool) (o : FetchOutcome (List RawWebHit)) :
    List WebResult :=
  if !hasKey then []
  else match o with
    | .exc => []
    | .resp status payload =>
        if status = 200 then
          match payload with
          | none => []
          | some results =>
              if results = [] then []
              else results.map processWebHit
        else []

/-- The part of a record's quality score that does not depend on the
sample size: study-type weight plus journal, recency and disclosure
bonuses. -/
def baseScore (cy : Int) (p : AcademicPaper) : ℚ :=
  type_scores p.study_type * 0.4 + journalBonus p.journal
    + recencyBonus cy p.publication_date + disclosureBonus p.conflicts_disclosed

/-- A fetched-and-parsed PubMed record classified `review`, used as a
concrete scorer input (quality `0.3 × 0.4 = 0.12`). -/
def reviewPaper : AcademicPaper :=
  { title := "A narrative review of aspartame studies", authors := [], abstract := "",
    publication_date := "", journal := "Some Journal", study_type := "review",
    quality_score := 0 }

/-- A fetched-and-parsed PubMed record classified `rct`, used as a
concrete scorer input (quality `0.9 × 0.4 = 0.36`). -/
def rctPaper : AcademicPaper :=
  { title := "A randomized controlled trial of aspartame", authors := [], abstract := "",
    publication_date := "", journal := "Some Journal", study_type := "rct",
    quality_score := 0 }

/-- A concrete arXiv feed entry. -/
def sampleArxivEntry : ArxivEntry :=
  { title := some "Aspartame metabolite modelling", summary := some "A modelling preprint.",
    authors := ["A. Author"], published := some "2023-01-01T00:00:00Z",
    idUrl := some "http://arxiv.org/abs/2301.00001" }

/-- A web result with credibility `0.9`. -/
def webHighCred : WebResult :=
  { title := "w1", url := "https://nih.gov/x", content := "c1",
    source_type := "medical_authority", credibility_score := 0.9 }

/-- A web result with credibility `0.7`. -/
def webMedCred : WebResult :=
  { title := "w2", url := "https://webmd.com/x", content := "c2",
    source_type := "medical_site", credibility_score := 0.7 }

/-! ### Helper lemmas -/

theorem type_scores_nonneg (st : String) : 0 ≤ type_scores st := by
  unfold type_scores; split_ifs <;> norm_num

theorem sampleBonus_nonneg (ss : Option Nat) : 0 ≤ sampleBonus ss := by
  cases ss with
  | none => norm_num [sampleBonus]
  | some n => simp only [sampleBonus]; split_ifs <;> norm_num

theorem journalBonus_nonneg (j : String) : 0 ≤ journalBonus j := by
  unfold journalBonus; split_ifs <;> norm_num

theorem recencyBonus_nonneg (cy : Int) (d : String) : 0 ≤ recencyBonus cy d := by
  unfold recencyBonus
  split_ifs with h
  · cases hp : pyInt? (lastFour d) with
    | none => norm_num
    | some y => simp only [hp]; split_ifs <;> norm_num
  · norm_num

theorem disclosureBonus_nonneg (b : Bool) : 0 ≤ disclosureBonus b := by
  unfold disclosureBonus; split_ifs <;> norm_num

theorem assess_eq_base (cy : Int) (p : AcademicPaper) :
    assess_paper_quality cy p = min 1.0 (baseScore cy p + sampleBonus p.sample_size) := by
  unfold assess_paper_quality baseScore
  congr 1
  ring

theorem sampleBonus_mono {n1 n2 : Nat} (h : n1 ≤ n2) :
    sampleBonus (some n1) ≤ sampleBonus (some n2) := by
  simp only [sampleBonus]
  split_ifs <;> first | (exfalso; omega) | norm_num

theorem assess_reviewPaper : assess_paper_quality 0 reviewPaper = 0.12 := by
  unfold assess_paper_quality
  rw [show type_scores reviewPaper.study_type = 0.3 from rfl,
      show sampleBonus reviewPaper.sample_size = 0 from rfl,
      show journalBonus reviewPaper.journal = 0 from rfl,
      show recencyBonus 0 reviewPaper.publication_date = 0 from rfl,
      show disclosureBonus reviewPaper.conflicts_disclosed = 0 from rfl]
  norm_num

theorem assess_rctPaper : assess_paper_quality 0 rctPaper = 0.36 := by
  unfold assess_paper_quality
  rw [show type_scores rctPaper.study_type = 0.9 from rfl,
      show sampleBonus rctPaper.sample_size = 0 from rfl,
      show journalBonus rctPaper.journal = 0 from rfl,
      show recencyBonus 0 rctPaper.publication_date = 0 from rfl,
      show disclosureBonus rctPaper.conflicts_disclosed = 0 from rfl]
  norm_num

theorem grade_eq_gradeLabel (ps : List AcademicPaper) :
    assess_evidence_grade ps = gradeLabel (firedIndex ps) := by
  unfold assess_evidence_grade firedIndex
  split_ifs <;> rfl

theorem fires_firedIndex (ps : List AcademicPaper) : fires ps (firedIndex ps) := by
  unfold firedIndex
  split_ifs with h0 h1 h2 h3 h4 h5
  · exact ⟨h0, fun j hj => absurd hj (Nat.not_lt_zero j)⟩
  · refine ⟨⟨h1, h2⟩, ?_⟩
    intro j hj
    interval_cases j
    · exact h0
  · refine ⟨h1, ?_⟩
    intro j hj
    interval_cases j
    · exact h0
    · exact fun hc => h2 hc.2
  · refine ⟨⟨h3, h4⟩, ?_⟩
    intro j hj
    interval_cases j
    · exact h0
    · exact fun hc => h1 hc.1
    · exact h1
  · refine ⟨h3, ?_⟩
    intro j hj
    interval_cases j
    · exact h0
    · exact fun hc => h1 hc.1
    · exact h1
    · exact fun hc => h4 hc.2
  · refine ⟨h5, ?_⟩
    intro j hj
    interval_cases j
    · exact h0
    · exact fun hc => h1 hc.1
    · exact h1
    · exact fun hc => h3 hc.1
    · exact h3
  · refine ⟨trivial, ?_⟩
    intro j hj
    interval_cases j
    · exact h0
    · exact fun hc => h1 hc.1
    · exact h1
    · exact fun hc => h3 hc.1
    · exact h3
    · exact h5

theorem fires_unique {ps : List AcademicPaper} {i j : Nat}
    (hi : fires ps i) (hj : fires ps j) : i = j := by
  rcases Nat.lt_trichotomy i j with h | h | h
  · exact absurd hi.1 (hj.2 i h)
  · exact h
  · exact absurd hj.1 (hi.2 j h)

/-! ### Claims -/

/-- C1 (counterexample): the academic-record list the pipeline hands
onward is NOT in general sorted by descending quality_score.  Two
primary-source calls returning one `review` record (scored `0.12`)
and one `rct` record (scored `0.36`) respectively give the combined
list `[0.12, 0.36]`, which ascends. -/
theorem combined_academic_list_not_sorted :
    ¬ ((academic_search_model (search_papers_model 0 [reviewPaper])
          (search_papers_model 0 [rctPaper]) []).1.Pairwise
        (fun a b => b.quality_score ≤ a.quality_score)) := by
  unfold search_papers_model
  simp only [List.map_cons, List.map_nil, List.mergeSort_singleton]
  unfold academic_search_model
  simp only [List.cons_append, List.nil_append, List.length_cons, List.length_nil]
  norm_num [List.pairwise_cons, assess_reviewPaper, assess_rctPaper]

/-- C1 (amended): each primary-source retrieval call's record list is
individually sorted by descending quality_score, but the list handed
onward is the plain concatenation of the two calls' results plus any
secondary-source fallback records, with no re-sort. -/
theorem per_call_sorted_combined_concatenated :
    (∀ (cy : Int) (fetched : List AcademicPaper),
        (search_papers_model cy fetched).Pairwise
          (fun a b => b.quality_score ≤ a.quality_score))
  ∧ (∀ pubmed1 pubmed2 arxivResult : List AcademicPaper,
        (academic_search_model pubmed1 pubmed2 arxivResult).1
          = pubmed1 ++ pubmed2
              ++ (if (pubmed1 ++ pubmed2).length < 3 then arxivResult else [])) := by
  constructor
  · intro cy fetched
    unfold search_papers_model
    have h := @List.sorted_mergeSort AcademicPaper
      (fun a b : AcademicPaper => decide (b.quality_score ≤ a.quality_score))
      (fun a b c hab hbc => by
        simp only [decide_eq_true_eq] at *
        exact le_trans hbc hab)
      (fun a b => by
        simp only [Bool.or_eq_true, decide_eq_true_eq]
        exact le_total b.quality_score a.quality_score)
      (fetched.map (fun p => { p with quality_score := assess_paper_quality cy p }))
    exact h.imp (fun hab => of_decide_eq_true hab)
  · intro pubmed1 pubmed2 arxivResult
    simp only [academic_search_model]
    split_ifs <;> simp

/-- C2: the evidence grader is a total function with first-match-wins
semantics: on every record list exactly one of the seven cascade
rules fires (no records; meta-analysis with at least two records over
`0.8`; meta-analysis otherwise; at least three `rct` records; `rct`
otherwise; any `cohort` or `case-control`; otherwise), and the
grader returns that rule's grade label. -/
theorem evidence_grader_total_and_first_match (ps : List AcademicPaper) :
    (∃! i, fires ps i) ∧ ∀ i, fires ps i → assess_evidence_grade ps = gradeLabel i :=
  ⟨⟨firedIndex ps, fires_firedIndex ps, fun i hi => fires_unique hi (fires_firedIndex ps)⟩,
   fun i hi => by rw [grade_eq_gradeLabel, fires_unique (fires_firedIndex ps) hi]⟩

/-- Witness for C2: on the empty record list, rule 0 fires and the
grader returns its label. -/
theorem evidence_grader_total_and_first_match_witness :
    assess_evidence_grade [] = "Very Low - No academic studies found" :=
  (evidence_grader_total_and_first_match []).2 0
    ⟨rfl, fun j hj => absurd hj (Nat.not_lt_zero j)⟩

/-- C3: the confidence calculator returns exactly `0.2` on two empty
collections, and its result is at most `0.95` on every pair of input
collections. -/
theorem confidence_floor_and_cap :
    calculate_confidence [] [] = 0.2
  ∧ ∀ (ps : List AcademicPaper) (ws : List WebResult),
      calculate_confidence ps ws ≤ 0.95 := by
  constructor
  · norm_num [calculate_confidence]
  · intro ps ws
    unfold calculate_confidence
    split_ifs
    · norm_num
    all_goals exact min_le_left _ _

/-- C4: with no academic records and exactly two web results of
credibility `0.9` and `0.7`, the confidence is
`(0.8 × 0.5) × 0.3 = 0.12` — the `0.2` floor does not apply because
the web collection is non-empty. -/
theorem confidence_web_only_formula :
    calculate_confidence [] [webHighCred, webMedCred] = 0.12
  ∧ calculate_confidence [] [webHighCred, webMedCred] ≠ 0.2 := by
  have h : calculate_confidence [] [webHighCred, webMedCred] = 0.12 := by
    unfold calculate_confidence
    norm_num [webHighCred, webMedCred]
    rw [if_neg (by simp), if_neg (by simp)]
    norm_num
  exact ⟨h, by rw [h]; norm_num⟩

/-- C5: for every current year and every record — any study type, any
optional sample size, any journal and publication-date text, any
disclosure flag — the computed quality score lies in `[0, 1]`. -/
theorem quality_score_unit_interval (cy : Int) (p : AcademicPaper) :
    0 ≤ assess_paper_quality cy p ∧ assess_paper_quality cy p ≤ 1 := by
  unfold assess_paper_quality
  constructor
  · exact le_min (by norm_num)
      (add_nonneg (add_nonneg (add_nonneg
        (add_nonneg (mul_nonneg (type_scores_nonneg _) (by norm_num)) (sampleBonus_nonneg _))
        (journalBonus_nonneg _)) (recencyBonus_nonneg _ _)) (disclosureBonus_nonneg _))
  · exact le_trans (min_le_left _ _) (by norm_num)

/-- C6: with all other attributes fixed, the quality score is
monotonically non-decreasing in the sample size, and raising the
sample size from `999` to `1000` raises the score by exactly `0.1`
provided the pre-sample-bonus sum plus the `0.3` band stays within
the `1.0` clamp. -/
theorem quality_monotone_in_sample_size :
    (∀ (cy : Int) (p : AcademicPaper) (n1 n2 : Nat), n1 ≤ n2 →
        assess_paper_quality cy { p with sample_size := some n1 }
          ≤ assess_paper_quality cy { p with sample_size := some n2 })
  ∧ (∀ (cy : Int) (p : AcademicPaper), baseScore cy p + 0.3 ≤ 1 →
        assess_paper_quality cy { p with sample_size := some 1000 }
          = assess_paper_quality cy { p with sample_size := some 999 } + 0.1) := by
  constructor
  · intro cy p n1 n2 h
    rw [assess_eq_base, assess_eq_base]
    have hb : baseScore cy { p with sample_size := some n1 }
        = baseScore cy { p with sample_size := some n2 } := rfl
    rw [hb]
    exact min_le_min le_rfl (add_le_add_left (sampleBonus_mono h) _)
  · intro cy p h
    rw [assess_eq_base, assess_eq_base]
    have hb1 : baseScore cy { p with sample_size := some 1000 } = baseScore cy p := rfl
    have hb2 : baseScore cy { p with sample_size := some 999 } = baseScore cy p := rfl
    have hs1 : sampleBonus (some 1000) = 0.3 := rfl
    have hs2 : sampleBonus (some 999) = 0.2 := rfl
    simp only [hb1, hb2, hs1, hs2]
    rw [min_eq_right (by linarith), min_eq_right (by linarith)]
    ring

/-- Witness for C6: both parts applied to the concrete `review`
record — sample sizes `10 ≤ 2000` do not lower the score, and the
`999 → 1000` step adds exactly `0.1` there. -/
theorem quality_monotone_in_sample_size_witness :
    (assess_paper_quality 0 { reviewPaper with sample_size := some 10 }
      ≤ assess_paper_quality 0 { reviewPaper with sample_size := some 2000 })
  ∧ (assess_paper_quality 0 { reviewPaper with sample_size := some 1000 }
      = assess_paper_quality 0 { reviewPaper with sample_size := some 999 } + 0.1) := by
  constructor
  · exact quality_monotone_in_sample_size.1 0 reviewPaper 10 2000 (by norm_num)
  · refine quality_monotone_in_sample_size.2 0 reviewPaper ?_
    unfold baseScore
    rw [show type_scores reviewPaper.study_type = 0.3 from rfl,
        show journalBonus reviewPaper.journal = 0 from rfl,
        show recencyBonus 0 reviewPaper.publication_date = 0 from rfl,
        show disclosureBonus reviewPaper.conflicts_disclosed = 0 from rfl]
    norm_num

/-- C7: the study classifier is total with first-match-wins semantics
— every title/abstract pair classifies to exactly one of the seven
labels — and a text containing both "meta-analysis" and "randomized
controlled trial" classifies as `meta-analysis`, rule 1 preceding
rule 2. -/
theorem study_classifier_total_and_precedence :
    (∀ title abstract : String,
        classify_study_type title abstract ∈
          ["meta-analysis", "rct", "cohort", "case-control", "cross-sectional", "review",
           "observational"])
  ∧ (∀ title abstract : String,
        strContains (lowerStr (title ++ " " ++ abstract)) "meta-analysis" = true →
        strContains (lowerStr (title ++ " " ++ abstract)) "randomized controlled trial" = true →
        classify_study_type title abstract = "meta-analysis") := by
  constructor
  · intro t a
    simp only [classify_study_type]
    split_ifs <;> simp
  · intro t a h1 _
    simp only [classify_study_type, List.any_cons, List.any_nil, h1, Bool.true_or,
      Bool.or_false, if_true]

/-- Witness for C7: a concrete title/abstract pair containing both
phrases classifies as `meta-analysis`. -/
theorem study_classifier_total_and_precedence_witness :
    classify_study_type "Meta-analysis of aspartame trials"
      "We pooled every randomized controlled trial." = "meta-analysis" :=
  study_classifier_total_and_precedence.2 _ _ rfl rfl

/-- C8: every record parsed from the secondary (arXiv) source has
`peer_reviewed = false` and a fixed quality score of exactly `0.3`
(it never runs through the quality scorer), and the pipeline issues
the secondary-source search if and only if the two primary-source
calls returned fewer than 3 records combined, appending the
secondary records unchanged. -/
theorem arxiv_fixed_score_and_fallback_condition :
    (∀ (entries : List ArxivEntry) (p : AcademicPaper), p ∈ parse_arxiv entries →
        p.peer_reviewed = false ∧ p.quality_score = 0.3)
  ∧ (∀ pubmed1 pubmed2 arxivResult : List AcademicPaper,
        ((academic_search_model pubmed1 pubmed2 arxivResult).2 = true
          ↔ pubmed1.length + pubmed2.length < 3))
  ∧ (∀ pubmed1 pubmed2 arxivResult : List AcademicPaper,
        pubmed1.length + pubmed2.length < 3 →
        (academic_search_model pubmed1 pubmed2 arxivResult).1
          = pubmed1 ++ pubmed2 ++ arxivResult) := by
  refine ⟨?_, ?_, ?_⟩
  · intro entries p hp
    simp only [parse_arxiv] at hp
    rcases List.mem_map.mp hp with ⟨e, -, rfl⟩
    exact ⟨rfl, rfl⟩
  · intro pubmed1 pubmed2 arxivResult
    simp only [academic_search_model]
    split_ifs with h <;> rw [List.length_append] at h <;> simp [h]
  · intro pubmed1 pubmed2 arxivResult h
    simp only [academic_search_model]
    rw [if_pos (by rw [List.length_append]; exact h)]

/-- Witness for C8: a concrete arXiv entry parses to a
non-peer-reviewed record of score `0.3`; with zero primary records
the fallback fires and appends that record unchanged. -/
theorem arxiv_fixed_score_and_fallback_condition_witness :
    ((parse_arxiv_entry sampleArxivEntry).peer_reviewed = false
      ∧ (parse_arxiv_entry sampleArxivEntry).quality_score = 0.3)
  ∧ (academic_search_model [] [] [parse_arxiv_entry sampleArxivEntry]).2 = true
  ∧ (academic_search_model [] [] [parse_arxiv_entry sampleArxivEntry]).1
      = [] ++ [] ++ [parse_arxiv_entry sampleArxivEntry] :=
  ⟨arxiv_fixed_score_and_fallback_condition.1 [sampleArxivEntry] _
      (by simp [parse_arxiv]),
   (arxiv_fixed_score_and_fallback_condition.2.1 [] [] _).mpr (by norm_num),
   arxiv_fixed_score_and_fallback_condition.2.2 [] [] _ (by norm_num)⟩

/-- C9: each modelled retrieval operation (PubMed id search, PubMed
detail fetch, arXiv search, Tavily web search) degrades every
failure — raised exception or timeout, non-200 status, unparsable
payload — to the empty result list instead of propagating it. -/
theorem retrieval_failures_degrade_to_empty :
    (search_pmids_model .exc = []
      ∧ (∀ (s : Nat) (pl : Option (List String)), s ≠ 200 →
          search_pmids_model (.resp s pl) = [])
      ∧ search_pmids_model (.resp 200 none) = [])
  ∧ (∀ pmids : List String, fetch_paper_details_model pmids .exc = []
      ∧ (∀ (s : Nat) (pl : Option (List (Option AcademicPaper))), s ≠ 200 →
          fetch_paper_details_model pmids (.resp s pl) = [])
      ∧ fetch_paper_details_model pmids (.resp 200 none) = [])
  ∧ (arxiv_search_model .exc = []
      ∧ (∀ (s : Nat) (pl : Option (List ArxivEntry)), s ≠ 200 →
          arxiv_search_model (.resp s pl) = [])
      ∧ arxiv_search_model (.resp 200 none) = [])
  ∧ (∀ hasKey : Bool, tavily_search_model hasKey .exc = []
      ∧ (∀ (s : Nat) (pl : Option (List RawWebHit)), s ≠ 200 →
          tavily_search_model hasKey (.resp s pl) = [])
      ∧ tavily_search_model hasKey (.resp 200 none) = []) := by
  refine ⟨⟨rfl, ?_, rfl⟩, ?_, ⟨rfl, ?_, rfl⟩, ?_⟩
  · intro s pl h
    simp only [search_pmids_model, if_pos h]
  · intro pmids
    refine ⟨?_, ?_, ?_⟩
    · simp only [fetch_paper_details_model]; split_ifs <;> rfl
    · intro s pl h
      simp only [fetch_paper_details_model, if_pos h]
      split_ifs <;> rfl
    · simp only [fetch_paper_details_model]; split_ifs <;> rfl
  · intro s pl h
    simp only [arxiv_search_model, if_pos h]
  · intro hasKey
    refine ⟨?_, ?_, ?_⟩
    · cases hasKey <;> rfl
    · intro s pl h
      cases hasKey with
      | false => rfl
      | true =>
        simp only [tavily_search_model, Bool.not_true, Bool.false_eq_true, if_false,
          if_neg h]
    · cases hasKey <;> rfl

/-- Witness for C9: concrete failing calls — status 500 on the id
search, status 404 on the detail fetch, an unparsable arXiv feed at
status 503, and an unparsable Tavily body at status 429 — all return
the empty list. -/
theorem retrieval_failures_degrade_to_empty_witness :
    search_pmids_model (.resp 500 (some ["1"])) = []
  ∧ fetch_paper_details_model ["1"] (.resp 404 none) = []
  ∧ arxiv_search_model (.resp 503 none) = []
  ∧ tavily_search_model true (.resp 429 none) = [] :=
  ⟨retrieval_failures_degrade_to_empty.1.2.1 500 (some ["1"]) (by norm_num),
   (retrieval_failures_degrade_to_empty.2.1 ["1"]).2.1 404 none (by norm_num),
   retrieval_failures_degrade_to_empty.2.2.1.2.1 503 none (by norm_num),
   (retrieval_failures_degrade_to_empty.2.2.2 true).2.1 429 none (by norm_num)⟩

/-- C10: a non-empty academic input can yield a confidence strictly
below the `0.2` baseline: a single secondary-source preprint record
(quality `0.3`, one distinct study type) with no web results gives
`0.7 × (0.3 × 0.8 + 0.2 × 0.2) = 0.196 < 0.2`. -/
theorem confidence_below_floor_with_preprint :
    calculate_confidence [parse_arxiv_entry sampleArxivEntry] [] = 0.196
  ∧ calculate_confidence [parse_arxiv_entry sampleArxivEntry] [] < 0.2 := by
  have h : calculate_confidence [parse_arxiv_entry sampleArxivEntry] [] = 0.196 := by
    unfold calculate_confidence
    norm_num [parse_arxiv_entry, sampleArxivEntry, List.dedup]
  exact ⟨h, by rw [h]; norm_num⟩

end Aspartame
